import Mathlib

/-!
Verification of the self-consistent galaxy-model driver
(`pytests/example_self_consistent_model3.py`) against its specification.

The driver is embedded as a concrete list of steps mirroring the Python
script line by line; an interpreter over an explicit driver state gives the
trace of iterate calls, component-list mutations, distribution-function
constructions and file writes.  The SelfConsistentModel solver itself is
implemented outside the files under verification, so its numerical contract
(mass tolerances, SolveError atomicity, deterministic sweeps) is modelled
from the specification text where a claim needs it.
-/

namespace SCM3

/-- Identifier of one of the three target density profiles built from the
INI file (`densityDisk`, `densityBulge`, `densityHalo` in the driver). -/
inductive DensId
  | densityDisk
  | densityBulge
  | densityHalo
deriving DecidableEq

/-- Identifier of one of the three distribution-function objects the driver
constructs (`dfDisk`, `dfBulge`, `dfHalo`). -/
inductive DFId
  | dfDisk
  | dfBulge
  | dfHalo
deriving DecidableEq

/-- A component's representation: a static density profile or a DF-based
component holding one of the constructed DFs. -/
inductive CompRep
  | staticDensity (d : DensId)
  | dfBased (df : DFId)
deriving DecidableEq

/-- A component slot of the SelfConsistentModel: representation plus the
`disklike` flag passed to `agama.Component`. -/
structure Component where
  rep : CompRep
  disklike : Bool
deriving DecidableEq

/-- Symbolic description of a potential object as the driver sees it:
either the model's published potential after a given number of completed
`iterate()` calls (its version), or a multipole expansion of another
potential truncated at a given `lmax`. -/
inductive PotSpec
  | full (version : Nat)
  | multipole (source : PotSpec) (lmax : Nat)
deriving DecidableEq

/-- How a distribution function was constructed: directly from INI
parameters in a given potential (the disk DF, line 82 of the driver), or by
Eddington inversion (`type='PseudoIsotropic'`) from a target density in a
given potential (lines 86-87). -/
inductive DFCtor
  | fromIniParams (pot : PotSpec)
  | pseudoIsotropic (pot : Option PotSpec) (target : DensId)
deriving DecidableEq

/-- Content written to a file by one write operation of the driver:
a potential serialization (`potential.export`), the rotation-curve text
table (`numpy.savetxt` in `writeRotationCurve`), a density export
(`Density.export`), the disk-plane table, or an N-body snapshot sampled
from a density or from a DF.  Each carries the potential version current at
the time of the write. -/
inductive FileContent
  | potentialSerialization (version : Nat)
  | rotCurveTable (version : Nat)
  | densityExport (rep : CompRep) (version : Nat)
  | diskPlaneTable (df : DFId) (version : Nat)
  | snapshotOfDensity (rep : CompRep) (version : Nat) (nSamples : Nat)
  | snapshotOfDF (df : DFId) (version : Nat) (nSamples : Nat)
deriving DecidableEq

/-- How the potential argument of a DF construction is obtained at run
time: the model's current potential, or the stored spherical (`pot_sph`)
approximation. -/
inductive DFKind
  | iniWithCurrentPot
  | pseudoIsotropicWithPotSph (target : DensId)
deriving DecidableEq

/-- One step of the driver script.  Steps are the externally visible
actions of `__main__`: appending or replacing a component, calling
`model.iterate()`, building `pot_sph`, constructing a DF, and the various
file writes. -/
inductive Step
  | appendComp (c : Component)
  | setComp (i : Nat) (c : Component)
  | iterateCall
  | mkPotSph (lmax : Nat)
  | mkDF (id : DFId) (kind : DFKind)
  | exportCompDensity (i : Nat) (file : String)
  | exportPotential (file : String)
  | saveRotCurve (file : String)
  | saveDiskPlane (df : DFId) (file : String)
  | snapshotDensity (i : Nat) (file : String) (n : Nat)
  | snapshotDF (df : DFId) (file : String) (n : Nat)
deriving DecidableEq

/-- The driver's state: the model's component list, the version of the
published potential (number of completed `iterate()` calls, 0 before any),
the stored `pot_sph` object, the log of DF constructions, and the ordered
log of file writes. -/
structure DState where
  components : List Component
  potVersion : Nat
  potSph : Option PotSpec
  dfLog : List (DFId × DFCtor)
  writes : List (String × FileContent)
deriving DecidableEq

/-- The driver state before any step has run. -/
def DState.init : DState :=
  { components := [], potVersion := 0, potSph := none, dfLog := [], writes := [] }

/-- Representation of the model's component `i` in state `s` (used when the
driver exports or samples `model.components[i].getDensity()`). -/
def repAt (s : DState) (i : Nat) : CompRep :=
  ((s.components.get? i).map Component.rep).getD (.staticDensity .densityDisk)

/-- Resolve a DF-construction step against the current state: the disk DF
captures the model's current potential; the pseudo-isotropic DFs capture
the stored `pot_sph`. -/
def resolveDF (s : DState) : DFKind → DFCtor
  | .iniWithCurrentPot => .fromIniParams (.full s.potVersion)
  | .pseudoIsotropicWithPotSph d => .pseudoIsotropic s.potSph d

/-- Small-step semantics of one driver step.  `iterateCall` publishes a new
potential (version bump); `mkPotSph` records the multipole expansion of the
current potential; writes append to the write log in program order. -/
def applyStep (s : DState) : Step → DState
  | .appendComp c => { s with components := s.components ++ [c] }
  | .setComp i c => { s with components := s.components.set i c }
  | .iterateCall => { s with potVersion := s.potVersion + 1 }
  | .mkPotSph lmax => { s with potSph := some (.multipole (.full s.potVersion) lmax) }
  | .mkDF id kind => { s with dfLog := s.dfLog ++ [(id, resolveDF s kind)] }
  | .exportCompDensity i f =>
      { s with writes := s.writes ++ [(f, .densityExport (repAt s i) s.potVersion)] }
  | .exportPotential f =>
      { s with writes := s.writes ++ [(f, .potentialSerialization s.potVersion)] }
  | .saveRotCurve f =>
      { s with writes := s.writes ++ [(f, .rotCurveTable s.potVersion)] }
  | .saveDiskPlane df f =>
      { s with writes := s.writes ++ [(f, .diskPlaneTable df s.potVersion)] }
  | .snapshotDensity i f n =>
      { s with writes := s.writes ++ [(f, .snapshotOfDensity (repAt s i) s.potVersion n)] }
  | .snapshotDF df f n =>
      { s with writes := s.writes ++ [(f, .snapshotOfDF df s.potVersion n)] }

/-- Run a list of steps from a state. -/
def runSteps (s : DState) : List Step → DState
  | [] => s
  | st :: rest => runSteps (applyStep s st) rest

/-- All states along a run, starting with the initial one (so the state
after step `i` of the program is entry `i+1`). -/
def statesAlong (s : DState) : List Step → List DState
  | [] => [s]
  | st :: rest => s :: statesAlong (applyStep s st) rest

/-- The component lists at the moment of each `iterate()` call, in call
order. -/
def iterateSnapshots (s : DState) : List Step → List (List Component)
  | [] => []
  | st :: rest =>
      match st with
      | .iterateCall => s.components :: iterateSnapshots (applyStep s st) rest
      | _ => iterateSnapshots (applyStep s st) rest

/-- `writeRotationCurve(filename, potential)` (driver lines 20-24): first
`potential.export(filename)`, then `numpy.savetxt(filename, ...)` writes
the rotation-curve table to the same file name. -/
def writeRotationCurveSteps (file : String) : List Step :=
  [.exportPotential file, .saveRotCurve file]

/-- `printoutInfo(model, iteration)` (driver lines 27-48): exports the
density of each component to `dens_*_iter<n>` and then calls
`writeRotationCurve("rotcurve_iter<n>", model.potential)`.  The console
prints carry no state and are omitted. -/
def printoutInfoSteps (iteration : Nat) : List Step :=
  [.exportCompDensity 0 ("dens_disk_iter" ++ toString iteration),
   .exportCompDensity 1 ("dens_bulge_iter" ++ toString iteration),
   .exportCompDensity 2 ("dens_halo_iter" ++ toString iteration)]
  ++ writeRotationCurveSteps ("rotcurve_iter" ++ toString iteration)

/-- The main loop (driver lines 101-104): `for iteration in range(6):`
calling `model.iterate()` then `printoutInfo(model, iteration)`. -/
def mainLoopSteps : List Step :=
  ((List.range 6).map (fun it => Step.iterateCall :: printoutInfoSteps it)).flatten

/-- The whole driver `__main__` block (lines 50-147) as a step list, in
source order: append the three static components, bootstrap iterate, write
`rotcurve_init`, construct `dfDisk` in the current potential, build
`pot_sph` as the `lmax=0` multipole of the current potential, construct
`dfBulge` and `dfHalo` from it, `printoutInfo(model, 0)`, replace the three
components by DF-based ones, run the six-iteration loop, then the final
disk-plane table and the six N-body snapshots. -/
def driverProgram : List Step :=
  [ .appendComp ⟨.staticDensity .densityDisk, true⟩,
    .appendComp ⟨.staticDensity .densityBulge, false⟩,
    .appendComp ⟨.staticDensity .densityHalo, false⟩,
    .iterateCall ]
  ++ writeRotationCurveSteps "rotcurve_init"
  ++ [ .mkDF .dfDisk .iniWithCurrentPot,
       .mkPotSph 0,
       .mkDF .dfBulge (.pseudoIsotropicWithPotSph .densityBulge),
       .mkDF .dfHalo (.pseudoIsotropicWithPotSph .densityHalo) ]
  ++ printoutInfoSteps 0
  ++ [ .setComp 0 ⟨.dfBased .dfDisk, true⟩,
       .setComp 1 ⟨.dfBased .dfBulge, false⟩,
       .setComp 2 ⟨.dfBased .dfHalo, false⟩ ]
  ++ mainLoopSteps
  ++ [ .saveDiskPlane .dfDisk "disk_plane",
       .snapshotDensity 0 "dens_disk_final" 160000,
       .snapshotDensity 1 "dens_bulge_final" 40000,
       .snapshotDensity 2 "dens_halo_final" 800000,
       .snapshotDF .dfDisk "model_disk_final" 160000,
       .snapshotDF .dfBulge "model_bulge_final" 40000,
       .snapshotDF .dfHalo "model_halo_final" 800000 ]

/-- The driver's final state. -/
def driverFinal : DState := runSteps DState.init driverProgram

/-- All states along the driver's run. -/
def driverStates : List DState := statesAlong DState.init driverProgram

/-- Component lists at each of the driver's `iterate()` calls. -/
def driverIterateSnapshots : List (List Component) :=
  iterateSnapshots DState.init driverProgram

/-- Whether a component is in the static-density representation. -/
def Component.isStatic (c : Component) : Bool :=
  match c.rep with
  | .staticDensity _ => true
  | .dfBased _ => false

/-- Whether a component is DF-based. -/
def Component.isDFBased (c : Component) : Bool :=
  match c.rep with
  | .staticDensity _ => false
  | .dfBased _ => true

/-- All components of a list are static. -/
def allStatic (cs : List Component) : Bool := cs.all Component.isStatic

/-- All components of a list are DF-based. -/
def allDFBased (cs : List Component) : Bool := cs.all Component.isDFBased

/-- Whether a step is a component replacement (`model.components[i] = ...`). -/
def isSetComp : Step → Bool
  | .setComp _ _ => true
  | _ => false

/-- Whether a step is an `iterate()` call. -/
def isIterate : Step → Bool
  | .iterateCall => true
  | _ => false

/-- Indices of the steps of a program satisfying a predicate. -/
def positionsWhere (p : Step → Bool) (prog : List Step) : List Nat :=
  (List.range prog.length).filter (fun i => ((prog.get? i).map p).getD false)

/-- All writes the driver makes to a given file name, in program order. -/
def writesTo (f : String) : List FileContent :=
  (driverFinal.writes.filter (fun w => w.1 = f)).map (fun w => w.2)

/-- The content of a file when the driver finishes: its last write. -/
def finalContent (f : String) : Option FileContent := (writesTo f).getLast?

/-- The three static components in driver order (lines 73-75). -/
def staticComponents : List Component :=
  [⟨.staticDensity .densityDisk, true⟩,
   ⟨.staticDensity .densityBulge, false⟩,
   ⟨.staticDensity .densityHalo, false⟩]

/-- The three DF-based components in driver order (lines 96-98). -/
def dfComponents : List Component :=
  [⟨.dfBased .dfDisk, true⟩,
   ⟨.dfBased .dfBulge, false⟩,
   ⟨.dfBased .dfHalo, false⟩]

/-- The component list at the bootstrap `iterate()` call. -/
def bootstrapComponents : List Component := driverIterateSnapshots.headD []

/-- The component list at the first `iterate()` call of the six-iteration
DF stage (it stays the same for all six, see
`df_objects_constructed_once_and_reused`). -/
def dfStageComponents : List Component := (driverIterateSnapshots.drop 1).headD []

/-- Whether slot `i` holds the component of its fixed morphological role:
slot 0 the disk (disklike), slot 1 the bulge, slot 2 the halo (both not
disklike), in either the static or the DF-based representation. -/
def roleOk (i : Nat) (c : Component) : Bool :=
  match i, c.rep, c.disklike with
  | 0, .staticDensity .densityDisk, true => true
  | 0, .dfBased .dfDisk, true => true
  | 1, .staticDensity .densityBulge, false => true
  | 1, .dfBased .dfBulge, false => true
  | 2, .staticDensity .densityHalo, false => true
  | 2, .dfBased .dfHalo, false => true
  | _, _, _ => false

/-- The three-slot invariant on a driver state: exactly three components,
each holding its fixed role with its fixed disklike flag. -/
def threeSlotInv (s : DState) : Bool :=
  (s.components.length == 3)
  && (List.range 3).all (fun i => ((s.components.get? i).map (roleOk i)).getD false)

/-- Number of replacement steps targeting slot `i` in the driver program. -/
def setCompCount (i : Nat) : Nat :=
  (driverProgram.filter (fun st =>
    match st with
    | .setComp j _ => j == i
    | _ => false)).length

/-- Relative tolerance on the combined total mass in the static bootstrap
stage (spec: "must equal M_d+M_b+M_h ±1e-6 relative"). -/
def staticTol : ℚ := 1 / 1000000

/-- Relative representation-induced mass-drift bound for DF-based
components (spec: "must remain within 5%"). -/
def dfTol : ℚ := 1 / 20

/-- Modelled from the spec: the relative tolerance with which one
component's density contribution reproduces its configured (static) or
DF-derived mass — the solver's numerical tolerance for static lookups, the
DF-integration drift bound for DF-based components.  The solver's mass
computation is implemented outside the files under verification. -/
def tolOf (c : Component) : ℚ := if c.isStatic then staticTol else dfTol

/-- Modelled from the spec: the total mass a component contributes to the
combined density field, written as its nominal mass `m` times one plus a
relative representation error `e`. -/
def contributedMass (m e : ℚ) : ℚ := m * (1 + e)

/-- Modelled from the spec: the total mass of the combined density field
produced by one `iterate()` sweep — the sum, in fixed component order, of
the per-component contributed masses. -/
def sweepMass : List Component → List ℚ → List ℚ → ℚ
  | _ :: cs, m :: ms, e :: es => contributedMass m e + sweepMass cs ms es
  | _, _, _ => 0

/-- Modelled from the spec: the error raised when the PotentialSolver
collaborator cannot produce a valid potential from the supplied density
(negative or infinite density sum). -/
inductive SolveError
  | invalidDensity
deriving DecidableEq

/-- Modelled from the spec: the solver state an `iterate()` call acts on —
the ordered component list and the currently published PotentialState
(potentials and densities are abstracted as rationals; the numerical solver
is implemented outside the files under verification). -/
structure SCState where
  components : List Component
  potential : ℚ
deriving DecidableEq

/-- Modelled from the spec: the combined density handed to the
PotentialSolver — each component's contribution evaluated in the potential
as of the start of the iteration and summed in fixed component order. -/
def combinedDensity (densityOf : Component → ℚ → ℚ) (cs : List Component) (p : ℚ) : ℚ :=
  cs.foldl (fun acc c => acc + densityOf c p) 0

/-- Modelled from the spec: one `iterate()` call — compute the combined
density, hand it to the solver, and publish the new potential only if the
solve succeeds; on SolveError the call fails without publishing. -/
def iterateModel (solvePot : ℚ → Except SolveError ℚ) (densityOf : Component → ℚ → ℚ)
    (s : SCState) : Except SolveError SCState :=
  match solvePot (combinedDensity densityOf s.components s.potential) with
  | .ok p => .ok { s with potential := p }
  | .error e => .error e

/-- Modelled from the spec: the state the caller observes after an
`iterate()` call — the new state on success, the unchanged previous state
on SolveError (publication is all-or-nothing). -/
def stateAfterIterate (solvePot : ℚ → Except SolveError ℚ)
    (densityOf : Component → ℚ → ℚ) (s : SCState) : SCState :=
  match iterateModel solvePot densityOf s with
  | .ok s' => s'
  | .error _ => s

/-- Modelled from the spec: the sequence of published PotentialStates over
`n` successful `iterate()` calls with a total solver, fixed component list
and initial potential — the Gauss-Seidel-style sweep is a pure function of
these inputs. -/
def potentialSequence (solvePot : ℚ → ℚ) (densityOf : Component → ℚ → ℚ)
    (cs : List Component) (p0 : ℚ) : Nat → List ℚ
  | 0 => []
  | n + 1 =>
      let p1 := solvePot (combinedDensity densityOf cs p0)
      p1 :: potentialSequence solvePot densityOf cs p1 n

/-- A solver that always fails (used to exercise the SolveError path). -/
def failingSolve : ℚ → Except SolveError ℚ := fun _ => .error .invalidDensity

/-- A trivial density evaluator. -/
def zeroDensity : Component → ℚ → ℚ := fun _ _ => 0

/-- The bootstrap `iterate()` sees exactly the three static components. -/
theorem bootstrapComponents_eq : bootstrapComponents = staticComponents := by decide

/-- The DF-stage `iterate()` calls see exactly the three DF-based
components. -/
theorem dfStageComponents_eq : dfStageComponents = dfComponents := by decide

/-- Absolute bound on the three-component mass drift: if each relative
error is at most `t` and the masses are nonnegative, the combined mass
differs from the nominal sum by at most `t` times the sum. -/
theorem massDriftBound (t Md Mb Mh e1 e2 e3 : ℚ)
    (hMd : 0 ≤ Md) (hMb : 0 ≤ Mb) (hMh : 0 ≤ Mh)
    (h1 : |e1| ≤ t) (h2 : |e2| ≤ t) (h3 : |e3| ≤ t) :
    |Md * (1 + e1) + Mb * (1 + e2) + Mh * (1 + e3) - (Md + Mb + Mh)|
      ≤ t * (Md + Mb + Mh) := by
  have hrw : Md * (1 + e1) + Mb * (1 + e2) + Mh * (1 + e3) - (Md + Mb + Mh)
      = Md * e1 + Mb * e2 + Mh * e3 := by ring
  have b1 : |Md * e1| ≤ Md * t := by
    rw [abs_mul, abs_of_nonneg hMd]
    exact mul_le_mul_of_nonneg_left h1 hMd
  have b2 : |Mb * e2| ≤ Mb * t := by
    rw [abs_mul, abs_of_nonneg hMb]
    exact mul_le_mul_of_nonneg_left h2 hMb
  have b3 : |Mh * e3| ≤ Mh * t := by
    rw [abs_mul, abs_of_nonneg hMh]
    exact mul_le_mul_of_nonneg_left h3 hMh
  have htri : |Md * e1 + Mb * e2 + Mh * e3| ≤ |Md * e1| + |Mb * e2| + |Mh * e3| :=
    abs_add_three _ _ _
  rw [hrw]
  have : Md * t + Mb * t + Mh * t = t * (Md + Mb + Mh) := by ring
  linarith

/-- Claim C1: the driver performs `iterate()` on a fixed schedule: exactly
seven calls in total, the first (the bootstrap) with all three components
in the static representation, the remaining six with all three DF-based.
The schedule is the constant step list `driverProgram`: the count is fixed
by the caller, and no convergence check inside the run decides it. -/
theorem fixed_iteration_schedule :
    (positionsWhere isIterate driverProgram).length = 7
    ∧ driverIterateSnapshots.length = 7
    ∧ allStatic (driverIterateSnapshots.headD []) = true
    ∧ (driverIterateSnapshots.drop 1).length = 6
    ∧ (driverIterateSnapshots.drop 1).all allDFBased = true := by decide

/-- Claim C2: the DF construction log of the driver — the disk DF is built
from INI parameters in the full (non-spherical) potential published by the
bootstrap iteration (version 1); the bulge and halo DFs are both built by
Eddington inversion (PseudoIsotropic) from their own target densities in
the same spherical potential object, the lmax=0 multipole expansion of that
same version-1 potential. -/
theorem df_construction_potentials :
    driverFinal.dfLog =
      [ (.dfDisk, .fromIniParams (.full 1)),
        (.dfBulge, .pseudoIsotropic (some (.multipole (.full 1) 0)) .densityBulge),
        (.dfHalo, .pseudoIsotropic (some (.multipole (.full 1) 0)) .densityHalo) ] := by decide

/-- Claim C3: the `iterate()` calls sit at program positions 3, 18, 24, 30,
36, 42, 48 and the three component replacements at positions 15, 16, 17 —
strictly after the bootstrap `iterate()` (position 3) has returned and
strictly before the next `iterate()` (position 18) begins; the driver is a
single sequential step list, so no replacement overlaps an iteration. -/
theorem replacements_between_iterates :
    positionsWhere isIterate driverProgram = [3, 18, 24, 30, 36, 42, 48]
    ∧ positionsWhere isSetComp driverProgram = [15, 16, 17]
    ∧ (positionsWhere isSetComp driverProgram).all
        (fun i => decide (3 < i) && decide (i < 18)) = true := by decide

/-- Claim C4: from the moment the three components are appended, every
driver state has exactly three component slots in the fixed order disk
(slot 0, disklike), bulge (slot 1), halo (slot 2, both not disklike), each
slot holding its own role in either representation; the component list
never exceeds three entries (nothing is deleted, slots are only overwritten
in place), and each slot is replaced exactly once, by the DF-based
component of the same role with the same disklike flag. -/
theorem component_slots_invariant :
    (driverStates.drop 3).all threeSlotInv = true
    ∧ driverStates.all (fun s => decide (s.components.length ≤ 3)) = true
    ∧ setCompCount 0 = 1 ∧ setCompCount 1 = 1 ∧ setCompCount 2 = 1
    ∧ driverProgram.filter isSetComp =
        [ .setComp 0 ⟨.dfBased .dfDisk, true⟩,
          .setComp 1 ⟨.dfBased .dfBulge, false⟩,
          .setComp 2 ⟨.dfBased .dfHalo, false⟩ ] := by decide

/-- Claim C5: in the driver's scenario the bootstrap `iterate()` acts on
the three static components and the six further calls on the three
DF-based ones; with every static contribution within the solver tolerance
(1e-6 relative) of its configured mass, the combined mass is within 1e-6
relative of M_d+M_b+M_h, and with every DF-based contribution within the
5% drift bound of its matching mass, the combined mass stays within 5% of
M_d+M_b+M_h.  Masses are nonnegative. -/
theorem scenario_mass_bounds (Md Mb Mh e1 e2 e3 f1 f2 f3 : ℚ)
    (hMd : 0 ≤ Md) (hMb : 0 ≤ Mb) (hMh : 0 ≤ Mh)
    (h1 : |e1| ≤ staticTol) (h2 : |e2| ≤ staticTol) (h3 : |e3| ≤ staticTol)
    (g1 : |f1| ≤ dfTol) (g2 : |f2| ≤ dfTol) (g3 : |f3| ≤ dfTol) :
    |sweepMass bootstrapComponents [Md, Mb, Mh] [e1, e2, e3] - (Md + Mb + Mh)|
        ≤ staticTol * (Md + Mb + Mh)
    ∧ |sweepMass dfStageComponents [Md, Mb, Mh] [f1, f2, f3] - (Md + Mb + Mh)|
        ≤ dfTol * (Md + Mb + Mh) := by
  constructor
  · have hsw : sweepMass bootstrapComponents [Md, Mb, Mh] [e1, e2, e3]
        = Md * (1 + e1) + Mb * (1 + e2) + Mh * (1 + e3) := by
      rw [bootstrapComponents_eq]
      simp [staticComponents, sweepMass, contributedMass]
      ring
    rw [hsw]
    exact massDriftBound staticTol Md Mb Mh e1 e2 e3 hMd hMb hMh h1 h2 h3
  · have hsw : sweepMass dfStageComponents [Md, Mb, Mh] [f1, f2, f3]
        = Md * (1 + f1) + Mb * (1 + f2) + Mh * (1 + f3) := by
      rw [dfStageComponents_eq]
      simp [dfComponents, sweepMass, contributedMass]
      ring
    rw [hsw]
    exact massDriftBound dfTol Md Mb Mh f1 f2 f3 hMd hMb hMh g1 g2 g3

/-- Witness for `scenario_mass_bounds` at unit masses and zero errors. -/
theorem scenario_mass_bounds_check :
    |sweepMass bootstrapComponents [1, 1, 1] [0, 0, 0] - (1 + 1 + 1)|
        ≤ staticTol * (1 + 1 + 1)
    ∧ |sweepMass dfStageComponents [1, 1, 1] [0, 0, 0] - (1 + 1 + 1)|
        ≤ dfTol * (1 + 1 + 1) :=
  scenario_mass_bounds 1 1 1 0 0 0 0 0 0
    (by norm_num) (by norm_num) (by norm_num)
    (by norm_num [staticTol]) (by norm_num [staticTol]) (by norm_num [staticTol])
    (by norm_num [dfTol]) (by norm_num [dfTol]) (by norm_num [dfTol])

/-- Claim C6 counterexample: in the driver run, after
`writeRotationCurve("rotcurve_init", model.potential)` returns, the file
holds the rotation-curve table written by `numpy.savetxt`, not the
potential serialization written by `potential.export` — the export is
overwritten before the call returns. -/
theorem rotcurve_init_not_potential_serialization :
    finalContent "rotcurve_init" = some (.rotCurveTable 1)
    ∧ ¬ finalContent "rotcurve_init" = some (.potentialSerialization 1) := by decide

/-- Claim C6 (amended): every `writeRotationCurve(filename, potential)`
call does serialize the current potential to the file named filename (the
`potential.export` write), but then overwrites the same file with the
rotation-curve text table, so the table — not the serialized potential —
is what the file contains when the call returns. -/
theorem writeRotationCurve_serializes_then_overwrites (s : DState) (f : String) :
    (runSteps s (writeRotationCurveSteps f)).writes =
      s.writes ++ [(f, .potentialSerialization s.potVersion),
                   (f, .rotCurveTable s.potVersion)] := by
  simp [writeRotationCurveSteps, runSteps, applyStep]

/-- Claim C7: if the PotentialSolver fails during an `iterate()` call, the
call reports the SolveError and the state the caller observes is exactly
the previous one — in particular the previously published PotentialState
is unchanged, so publication is all-or-nothing. -/
theorem iterate_solve_error_preserves_potential
    (solvePot : ℚ → Except SolveError ℚ) (densityOf : Component → ℚ → ℚ)
    (s : SCState) (e : SolveError)
    (h : iterateModel solvePot densityOf s = .error e) :
    stateAfterIterate solvePot densityOf s = s
    ∧ (stateAfterIterate solvePot densityOf s).potential = s.potential := by
  have hs : stateAfterIterate solvePot densityOf s = s := by
    unfold stateAfterIterate
    rw [h]
  exact ⟨hs, by rw [hs]⟩

/-- Witness for `iterate_solve_error_preserves_potential` with a solver
that always fails, on the empty model at potential 5. -/
theorem iterate_solve_error_preserves_potential_check :
    stateAfterIterate failingSolve zeroDensity ⟨[], 5⟩ = ⟨[], 5⟩
    ∧ (stateAfterIterate failingSolve zeroDensity ⟨[], 5⟩).potential
        = (⟨[], 5⟩ : SCState).potential :=
  iterate_solve_error_preserves_potential failingSolve zeroDensity ⟨[], 5⟩
    .invalidDensity rfl

/-- Claim C8: the published PotentialState sequence is a pure function of
the solver, the density evaluator, the component list (in its fixed
Gauss-Seidel order), the initial potential, and the iteration count — two
runs with identical configuration and iteration count produce identical
sequences. -/
theorem iteration_deterministic
    (solve1 solve2 : ℚ → ℚ) (dens1 dens2 : Component → ℚ → ℚ)
    (cs1 cs2 : List Component) (p1 p2 : ℚ) (n1 n2 : Nat)
    (hs : solve1 = solve2) (hd : dens1 = dens2) (hc : cs1 = cs2)
    (hp : p1 = p2) (hn : n1 = n2) :
    potentialSequence solve1 dens1 cs1 p1 n1
      = potentialSequence solve2 dens2 cs2 p2 n2 := by
  subst hs hd hc hp hn
  rfl

/-- Witness for `iteration_deterministic` on two identical concrete runs. -/
theorem iteration_deterministic_check :
    potentialSequence (fun d => d) zeroDensity dfComponents 1 3
      = potentialSequence (fun d => d) zeroDensity dfComponents 1 3 :=
  iteration_deterministic (fun d => d) (fun d => d) zeroDensity zeroDensity
    dfComponents dfComponents 1 1 3 3 rfl rfl rfl rfl rfl

/-- Claim C9 counterexample: the file rotcurve_iter0 receives four writes
during the driver run (each of the two `printoutInfo(model, 0)` calls
writes it twice: the potential export, then the savetxt table), not two. -/
theorem rotcurve_iter0_written_four_times :
    (writesTo "rotcurve_iter0").length = 4
    ∧ ¬ (writesTo "rotcurve_iter0").length = 2 := by decide

/-- Claim C9 (amended): `printoutInfo(model, 0)` runs twice — once after
the bootstrap (potential version 1, static components) and once after the
first DF-stage iteration (version 2, DF-based components) — so each
dens_*_iter0 file is written exactly twice and rotcurve_iter0 four times
(twice per call), and every bootstrap-stage write is overwritten: the
final contents all come from the first DF-stage iteration. -/
theorem iter0_diagnostics_written_twice_and_overwritten :
    writesTo "dens_disk_iter0" =
      [.densityExport (.staticDensity .densityDisk) 1,
       .densityExport (.dfBased .dfDisk) 2]
    ∧ writesTo "dens_bulge_iter0" =
      [.densityExport (.staticDensity .densityBulge) 1,
       .densityExport (.dfBased .dfBulge) 2]
    ∧ writesTo "dens_halo_iter0" =
      [.densityExport (.staticDensity .densityHalo) 1,
       .densityExport (.dfBased .dfHalo) 2]
    ∧ writesTo "rotcurve_iter0" =
      [.potentialSerialization 1, .rotCurveTable 1,
       .potentialSerialization 2, .rotCurveTable 2]
    ∧ finalContent "dens_disk_iter0" = some (.densityExport (.dfBased .dfDisk) 2)
    ∧ finalContent "dens_bulge_iter0" = some (.densityExport (.dfBased .dfBulge) 2)
    ∧ finalContent "dens_halo_iter0" = some (.densityExport (.dfBased .dfHalo) 2)
    ∧ finalContent "rotcurve_iter0" = some (.rotCurveTable 2) := by decide

/-- Claim C10: each DF is constructed exactly once — the disk DF in the
full bootstrap potential (version 1), the bulge and halo DFs in its lmax=0
multipole approximation — and never reconstructed: from the replacement on,
every driver state carries the same three DF-based components, every
DF-stage `iterate()` call sees that same list (only the potential version
advances), and the final disk-plane table and DF snapshots use those same
three DFs in the final potential (version 7). -/
theorem df_objects_constructed_once_and_reused :
    driverFinal.dfLog.map Prod.fst = [.dfDisk, .dfBulge, .dfHalo]
    ∧ (driverFinal.dfLog.map Prod.snd).head? = some (.fromIniParams (.full 1))
    ∧ (driverFinal.dfLog.map Prod.snd).drop 1 =
        [.pseudoIsotropic (some (.multipole (.full 1) 0)) .densityBulge,
         .pseudoIsotropic (some (.multipole (.full 1) 0)) .densityHalo]
    ∧ (driverStates.drop 18).all (fun s => decide (s.components = dfComponents)) = true
    ∧ (driverIterateSnapshots.drop 1).all (fun cs => decide (cs = dfComponents)) = true
    ∧ finalContent "disk_plane" = some (.diskPlaneTable .dfDisk 7)
    ∧ finalContent "model_disk_final" = some (.snapshotOfDF .dfDisk 7 160000)
    ∧ finalContent "model_bulge_final" = some (.snapshotOfDF .dfBulge 7 40000)
    ∧ finalContent "model_halo_final" = some (.snapshotOfDF .dfHalo 7 800000) := by decide

end SCM3
